import Mathlib

/-!
Shallow embedding of the car-rental system in src/main.py.

Files are modelled as lists of line contents (without the trailing
newline); a missing file is `Option.none`.  Python dicts built with
`dict(zip(keys, values))` are modelled as association lists
(`List (String × String)`), which like Python's `zip` truncate to the
shorter of the two lists.  Python `float` and `int` literals from the
data files are modelled over `ℚ` and `ℤ`; string scanning is done over
`List Char` so every definition reduces in the kernel.
-/

/-- Character-level split, matching Python's `str.split(sep)` for a
one-character separator: empty fields are kept, and splitting the empty
string yields one empty field. -/
def splitCh (sep : Char) : List Char → List (List Char)
  | [] => [[]]
  | c :: cs =>
    if c = sep then [] :: splitCh sep cs
    else
      match splitCh sep cs with
      | [] => [[c]]
      | g :: gs => (c :: g) :: gs

def strSplit (s : String) (sep : Char) : List String :=
  (splitCh sep s.data).map (fun cs => String.mk cs)

/-- Leading- and trailing-whitespace removal, matching `str.strip()`. -/
def stripChars (cs : List Char) : List Char :=
  ((cs.dropWhile Char.isWhitespace).reverse.dropWhile Char.isWhitespace).reverse

def strip (s : String) : String := String.mk (stripChars s.data)

/-- Is `pre` a leading run of `l`?  Used to model `str.startswith`. -/
def isLeadingRun : List Char → List Char → Bool
  | [], _ => true
  | _ :: _, [] => false
  | a :: as, b :: bs => a = b && isLeadingRun as bs

/-- Model of `line.startswith(key)`. -/
def lineStarts (line key : String) : Bool :=
  isLeadingRun key.data line.data

/-- Digit-string to number: `some n` iff the character list is nonempty
and all digits (the fragment of `int`-style digit scanning the parsers
need). -/
def digitsToNat? (cs : List Char) : Option ℕ :=
  if cs ≠ [] ∧ cs.all Char.isDigit then
    some (cs.foldl (fun n c => 10 * n + (c.toNat - 48)) 0)
  else none

/-- Model of Python `float()` restricted to plain decimal literals
(optional sign, digits, at most one point), the only shapes stored by
this program; `float` raising `ValueError` is `none`. -/
def pyFloat? (s : String) : Option ℚ :=
  let body : List Char → Option ℚ := fun cs =>
    match splitCh '.' cs with
    | [ip] => (digitsToNat? ip).map (fun n => (n : ℚ))
    | [ip, fp] =>
        if (ip ++ fp) ≠ [] ∧ (ip ++ fp).all Char.isDigit then
          some (((digitsToNat? (ip ++ fp)).getD 0 : ℚ) / ((10 : ℚ) ^ fp.length))
        else none
    | _ => none
  match stripChars s.data with
  | '-' :: rest => (body rest).map (fun q => -q)
  | '+' :: rest => body rest
  | cs => body cs

/-- Model of Python `int()` on the stored duration fields. -/
def pyInt? (s : String) : Option ℤ :=
  match stripChars s.data with
  | '-' :: rest => (digitsToNat? rest).map (fun n => -(n : ℤ))
  | '+' :: rest => (digitsToNat? rest).map (fun n => (n : ℤ))
  | cs => (digitsToNat? cs).map (fun n => (n : ℤ))

/-- A Python dict produced by `dict(zip(keys, values))`: an association
list that, like `zip`, truncates to the shorter list. -/
abbrev Dict := List (String × String)

/-- Model of `d[k]` read access: `some v` when present, `none` standing
for the `KeyError` path. -/
def dget (d : Dict) (k : String) : Option String :=
  (d.find? (fun kv => kv.1 == k)).map (fun kv => kv.2)

structure Vehicle where
  reg : String
  model : String
  rate : ℚ
  properties : List String
deriving DecidableEq

structure Transaction where
  reg : String
  dob : String
  start : String
  stop : String
  days : ℤ
  price : ℚ
deriving DecidableEq

/-- `vehicle_parser` from `VehicleRentalSystem.__init__`: fields
`reg, model, rate (float), properties (rest)`.  Fewer than three fields
is the `IndexError` path and a non-numeric rate the `ValueError` path,
both modelled as `Except.error`. -/
def vehicle_line_record (line : String) : Except String Vehicle :=
  match strSplit line ',' with
  | f0 :: f1 :: f2 :: rest =>
    match pyFloat? f2 with
    | some r => Except.ok { reg := f0, model := f1, rate := r, properties := rest }
    | none => Except.error "ValueError"
  | _ => Except.error "IndexError"

/-- `customer_parser`: `dict(zip(['dob','fname','lname','email'], line.split(',')))`.
All fields are strings, so this parser never raises: a short line just
yields a dict with the missing keys absent. -/
def customer_line_record (line : String) : Dict :=
  List.zip ["dob", "fname", "lname", "email"] (strSplit line ',')

/-- `rented_parser`: `dict(zip(['reg','customer_dob','start_time'], line.split(',')))`. -/
def rented_line_record (line : String) : Dict :=
  List.zip ["reg", "customer_dob", "start_time"] (strSplit line ',')

/-- `transaction_parser`: four string fields then `int` days and `float`
price; a line with fewer than six fields raises `IndexError`, a
non-numeric days/price field `ValueError`. -/
def transaction_line_record (line : String) : Except String Transaction :=
  match strSplit line ',' with
  | f0 :: f1 :: f2 :: f3 :: f4 :: f5 :: _ =>
    match pyInt? f4, pyFloat? f5 with
    | some d, some p =>
        Except.ok { reg := f0, dob := f1, start := f2, stop := f3, days := d, price := p }
    | _, _ => Except.error "ValueError"
  | _ => Except.error "IndexError"

/-- Except-valued wrappers so all four parsers fit the one read
interface; the two all-string parsers simply never fail. -/
def vehicle_parse (line : String) : Except String Vehicle := vehicle_line_record line

def customer_parse (line : String) : Except String Dict := Except.ok (customer_line_record line)

def rented_parse (line : String) : Except String Dict := Except.ok (rented_line_record line)

def transaction_parse (line : String) : Except String Transaction := transaction_line_record line

/-- Left-to-right traversal of the list comprehension in
`FileReader.read_file`: the first exception aborts the whole read and
no partial list is produced. -/
def mapExcept (p : String → Except String α) : List String → Except String (List α)
  | [] => Except.ok []
  | l :: ls =>
    match p l with
    | Except.error e => Except.error e
    | Except.ok a =>
      match mapExcept p ls with
      | Except.error e => Except.error e
      | Except.ok as => Except.ok (a :: as)

/-- `FileReader.read_file`: a missing file (`none`) is caught
(`FileNotFoundError`), a message printed, and the empty collection
returned; otherwise every stripped line is parsed. -/
def read_file (file : Option (List String)) (p : String → Except String α) :
    Except String (List α) :=
  match file with
  | none => Except.ok []
  | some lines => mapExcept (fun l => p (strip l)) lines

/-- The rented and customer collections, whose parsers are total, read
as plain maps. -/
def parsedRented (lines : List String) : List Dict :=
  lines.map (fun l => rented_line_record (strip l))

def parsedCustomers (lines : List String) : List Dict :=
  lines.map (fun l => customer_line_record (strip l))

/-- Calendar timestamp at the granularity the program manipulates
(`datetime.strptime` on the stored minute-resolution stamps yields
seconds = 0; `datetime.now()` carries seconds, which we keep and whose
sub-second part the duration claims do not observe). -/
structure Datetime where
  year : ℕ
  month : ℕ
  day : ℕ
  hour : ℕ
  minute : ℕ
  second : ℕ
deriving DecidableEq

def isLeapYear (y : ℕ) : Bool :=
  y % 4 = 0 && (y % 100 ≠ 0 || y % 400 = 0)

def daysInMonth (m y : ℕ) : ℕ :=
  if m = 2 then (if isLeapYear y then 29 else 28)
  else if m = 4 ∨ m = 6 ∨ m = 9 ∨ m = 11 then 30
  else 31

/-- Days since 1970-01-01 of a proleptic-Gregorian civil date (the
standard days-from-civil algorithm), the timeline `datetime`
subtraction is defined over. -/
def daysFromCivil (y m d : ℤ) : ℤ :=
  let yAdj := if m ≤ 2 then y - 1 else y
  let era := yAdj.fdiv 400
  let yoe := yAdj - era * 400
  let mp := (m + 9).emod 12
  let doy := (153 * mp + 2).fdiv 5 + d - 1
  let doe := yoe * 365 + yoe.fdiv 4 - yoe.fdiv 100 + doy
  era * 146097 + doe - 719468

/-- Absolute time in seconds of a `Datetime`, the measure under which
Python subtracts two datetimes. -/
def toSec (dt : Datetime) : ℤ :=
  daysFromCivil dt.year dt.month dt.day * 86400
    + dt.hour * 3600 + dt.minute * 60 + dt.second

/-- `(end - start).days` of Python's `timedelta`: floor of the exact
difference in days. -/
def tdDays (e s : Datetime) : ℤ := (toSec e - toSec s).fdiv 86400

/-- `datetime.strptime(s, "%d/%m/%Y")`, returned as (day, month, year).
CPython's `%d`/`%m` accept one or two digits, `%Y` exactly four, and the
constructor then rejects impossible calendar dates (year 0, day past the
month's end); any failure is `ValueError`, i.e. `none`. -/
def parseDate (s : String) : Option (ℕ × ℕ × ℕ) :=
  match strSplit s '/' with
  | [ds, ms, ys] =>
    match digitsToNat? ds.data, digitsToNat? ms.data, digitsToNat? ys.data with
    | some d, some m, some y =>
      if ds.data.length ≤ 2 ∧ ms.data.length ≤ 2 ∧ ys.data.length = 4
          ∧ 1 ≤ y ∧ 1 ≤ m ∧ m ≤ 12 ∧ 1 ≤ d ∧ d ≤ daysInMonth m y then
        some (d, m, y)
      else none
    | _, _, _ => none
  | _ => none

/-- `datetime.strptime(s, "%d/%m/%Y %H:%M")` on a stored rental start
stamp (`%H`/`%M` accept one or two digits, hour ≤ 23, minute ≤ 59). -/
def parseDateTime (s : String) : Option Datetime :=
  match strSplit s ' ' with
  | [dpart, tpart] =>
    match parseDate dpart, strSplit tpart ':' with
    | some (d, m, y), [hs, ms] =>
      match digitsToNat? hs.data, digitsToNat? ms.data with
      | some h, some mi =>
        if hs.data.length ≤ 2 ∧ ms.data.length ≤ 2 ∧ h ≤ 23 ∧ mi ≤ 59 then
          some { year := y, month := m, day := d, hour := h, minute := mi, second := 0 }
        else none
      | _, _ => none
    | _, _ => none
  | _ => none

/-- Outcome of `validate_customer` (the source reports each branch with
a printed message and a `False` return; the constructors record which
message). -/
inductive VRes
  | invalidDate
  | ageOutOfRange
  | duplicate
  | ok
deriving DecidableEq

/-- `VehicleRentalSystem.validate_customer`: parse the dob, check
`18 <= now.year - birth.year <= 75` (plain year subtraction), then
reject when any stored customer has the identical dob string. -/
def validate_customer (nowYear : ℤ) (customers : List Dict) (dob : String) : VRes :=
  match parseDate dob with
  | none => VRes.invalidDate
  | some (_, _, y) =>
    let age : ℤ := nowYear - (y : ℤ)
    if ¬(18 ≤ age ∧ age ≤ 75) then VRes.ageOutOfRange
    else if customers.any (fun c => dget c "dob" == some dob) then VRes.duplicate
    else VRes.ok

/-- Registration strings of the active-rental records, the set the
catalog query subtracts (`{r['reg'] for r in self.read_rented()}`). -/
def rented_regs (rs : List Dict) : List String :=
  rs.filterMap (fun r => dget r "reg")

/-- The availability comprehension shared by `list_available_cars` and
`rent_car`: `[car for car in vehicles if car['reg'] not in rented_regs]`. -/
def available_cars (vehicles : List Vehicle) (regs : List String) : List Vehicle :=
  vehicles.filter (fun car => !(regs.contains car.reg))

/-- `list_available_cars` on parsed collections; an empty result is the
value displayed as "No cars are currently available", not an error. -/
def list_available (vehicles : List Vehicle) (rented : List Dict) : List Vehicle :=
  available_cars vehicles (rented_regs rented)

/-- Decimal digits of a natural number (fuel-driven so it reduces in
the kernel; fuel at least the digit count always suffices). -/
def natToChars : ℕ → ℕ → List Char
  | 0, _ => []
  | _ + 1, n =>
    if n < 10 then [Char.ofNat (48 + n)]
    else natToChars n (n / 10) ++ [Char.ofNat (48 + n % 10)]

def natStr (n : ℕ) : String := String.mk (natToChars (n + 1) n)

def intStr (i : ℤ) : String :=
  if i < 0 then "-" ++ natStr i.natAbs else natStr i.natAbs

def pad2 (n : ℕ) : String := if n < 10 then "0" ++ natStr n else natStr n

def pad4 (n : ℕ) : String :=
  if n < 10 then "000" ++ natStr n
  else if n < 100 then "00" ++ natStr n
  else if n < 1000 then "0" ++ natStr n
  else natStr n

/-- `strftime("%d/%m/%Y %H:%M")`, the stamp format the workflows write. -/
def fmtDT (dt : Datetime) : String :=
  pad2 dt.day ++ "/" ++ pad2 dt.month ++ "/" ++ pad4 dt.year ++ " "
    ++ pad2 dt.hour ++ ":" ++ pad2 dt.minute

/-- Two-decimal rendering modelling the `:.2f` format applied to the
nonnegative costs this program produces. -/
def fmt2 (q : ℚ) : String :=
  let c : ℤ := ⌊q * 100 + 1 / 2⌋
  intStr (c.fdiv 100) ++ "." ++ pad2 (c.fmod 100).toNat

def joinComma : List String → String
  | [] => ""
  | [x] => x
  | x :: xs => x ++ "," ++ joinComma xs

def upperStr (s : String) : String := String.mk (s.data.map Char.toUpper)

/-- `(end_time - start_time).days + 1`, the duration the Return
Workflow charges. -/
def duration_days (start now : Datetime) : ℤ := tdDays now start + 1

/-- `days * car['rate']`, the Return Workflow's cost formula (rounding
to two decimals happens only when the value is displayed or written). -/
def return_cost (days : ℤ) (rate : ℚ) : ℚ := days * rate

/-- The rewrite step of `return_car` (lines 183-186): keep exactly the
lines that do NOT start with the requested registration string. -/
def delete_rented_lines (reg : String) (lines : List String) : List String :=
  lines.filter (fun l => !(lineStarts l reg))

/-- How a `return_car` run ends.  `noRental` is the reported,
non-fatal user path; `missingVehicle` is the uncaught `StopIteration`
of `next(...)`, `badRecord` an uncaught `ValueError`/`KeyError` on a
corrupt rental record and `readError` an uncaught parse exception in
`read_vehicles` - all three crash the process, reported as a traceback,
distinct from the printed user-error path. -/
inductive RetOutcome
  | noRental
  | readError
  | missingVehicle
  | badRecord
  | returned (days : ℤ) (cost : ℚ)
deriving DecidableEq

/-- `VehicleRentalSystem.return_car` on explicit file states.  Takes
the registration typed by the user and the current instant; returns the
outcome together with the new contents of `rentedVehicles.txt` and
`transActions.txt`.  Every non-`returned` outcome occurs before either
file is modified. -/
def return_car (reg : String) (now : Datetime)
    (vlines rlines tlines : List String) :
    RetOutcome × List String × List String :=
  match (parsedRented rlines).find? (fun r => dget r "reg" == some reg) with
  | none => (RetOutcome.noRental, rlines, tlines)
  | some rental =>
    match read_file (some vlines) vehicle_parse with
    | Except.error _ => (RetOutcome.readError, rlines, tlines)
    | Except.ok vehicles =>
      match vehicles.find? (fun v => v.reg == reg) with
      | none => (RetOutcome.missingVehicle, rlines, tlines)
      | some car =>
        match dget rental "start_time" with
        | none => (RetOutcome.badRecord, rlines, tlines)
        | some st =>
          match parseDateTime st with
          | none => (RetOutcome.badRecord, rlines, tlines)
          | some startDt =>
            match dget rental "customer_dob" with
            | none => (RetOutcome.badRecord, rlines, tlines)
            | some cdob =>
              let days := duration_days startDt now
              let cost := return_cost days car.rate
              let transLine :=
                joinComma [reg, cdob, st, fmtDT now, intStr days, fmt2 cost]
              (RetOutcome.returned days cost,
               delete_rented_lines reg rlines,
               tlines ++ [transLine])

/-- `VehicleRentalSystem.add_customer` with the prompted values
injected (the name/email prompts re-ask until valid, so they cannot
fail): validation first, and only on success the one append to
`customers.txt`.  Returns the new dob identity and file content. -/
def add_customer (nowYear : ℤ) (clines : List String)
    (dob fname lname email : String) : Option (String × List String) :=
  match validate_customer nowYear (parsedCustomers clines) dob with
  | VRes.ok =>
      some (dob,
        clines ++ [joinComma [dob, upperStr (strip fname), upperStr (strip lname), strip email]])
  | _ => none

/-- `_select_available_car` with the single prompted registration
injected: the loop body returns the registration if it is among the
available cars and gives up (`None`) after one invalid attempt. -/
def select_available_car (availList : List Vehicle) (regInput : String) : Option String :=
  if availList.any (fun car => car.reg == regInput) then some regInput else none

/-- How a `rent_car` run ends; only `rented` mutates any file. -/
inductive RentOutcome
  | readError
  | noVehicles
  | invalidSelection
  | onboardingRejected
  | rented
deriving DecidableEq

/-- `VehicleRentalSystem.rent_car` on explicit file states: compute
availability, select a car, onboard the customer, and only if all of
that succeeded append the one active-rental line.  Returns the outcome
with the new contents of `customers.txt` and `rentedVehicles.txt`. -/
def rent_car (regInput dob fname lname email : String) (nowYear : ℤ)
    (nowStamp : String) (vlines clines rlines : List String) :
    RentOutcome × List String × List String :=
  match read_file (some vlines) vehicle_parse with
  | Except.error _ => (RentOutcome.readError, clines, rlines)
  | Except.ok vehicles =>
    let availList := available_cars vehicles (rented_regs (parsedRented rlines))
    if availList.isEmpty then (RentOutcome.noVehicles, clines, rlines)
    else
      match select_available_car availList regInput with
      | none => (RentOutcome.invalidSelection, clines, rlines)
      | some reg =>
        match add_customer nowYear clines dob fname lname email with
        | none => (RentOutcome.onboardingRejected, clines, rlines)
        | some (dob2, clines2) =>
          (RentOutcome.rented, clines2, rlines ++ [joinComma [reg, dob2, nowStamp]])

/-- `count_money`: sum of the price field; the empty case is reported
as a distinct no-rentals state. -/
def count_money (ts : List Transaction) : Option (ℚ × ℕ) :=
  if ts.isEmpty then none else some ((ts.map Transaction.price).sum, ts.length)

lemma mapExcept_error_of_mem {α : Type} {p : String → Except String α}
    {l : String} {e : String} {ls : List String}
    (hmem : l ∈ ls) (herr : p l = Except.error e) :
    ∃ e2, mapExcept p ls = Except.error e2 := by
  induction ls with
  | nil => exact absurd hmem (List.not_mem_nil l)
  | cons a as ih =>
    rcases List.mem_cons.mp hmem with rfl | hmem2
    · exact ⟨e, by simp [mapExcept, herr]⟩
    · rcases h : p a with e3 | a2
      · exact ⟨e3, by simp [mapExcept, h]⟩
      · rcases ih hmem2 with ⟨e4, h4⟩
        exact ⟨e4, by simp [mapExcept, h, h4]⟩

lemma mapExcept_ok_of_total {α : Type} {p : String → Except String α}
    (hp : ∀ l, ∃ x, p l = Except.ok x) (ls : List String) :
    ∃ xs, mapExcept p ls = Except.ok xs := by
  induction ls with
  | nil => exact ⟨[], rfl⟩
  | cons a as ih =>
    rcases hp a with ⟨x, hx⟩
    rcases ih with ⟨xs, hxs⟩
    exact ⟨x :: xs, by simp [mapExcept, hx, hxs]⟩

/-- C1: the spec says the Return Workflow's delete step removes exactly
the lines whose registration field equals the key.  The code instead
keeps `line for line in lines if not line.startswith(reg)`: with active
rentals for registrations ABC1 and ABC123, returning ABC1 also deletes
the ABC123 record, whose registration field is not equal to the key -
evaluated here at that failing input. -/
theorem c1_delete_step_removes_by_leading_text :
    delete_rented_lines "ABC1"
        ["ABC1,01/01/1990,01/01/2020 10:00", "ABC123,02/02/1991,02/01/2020 11:00"] = []
    ∧ (strSplit "ABC123,02/02/1991,02/01/2020 11:00" ',').headD "" = "ABC123"
    ∧ "ABC123" ≠ "ABC1" := by decide

/-- C5: the availability computation returns exactly the vehicles whose
registration is not among the active-rental registrations, as a sublist
of the vehicle collection (hence in input order), with
`available(V, ∅) = V` and `available(∅, R) = ∅`; it is a total function,
so the empty result is an ordinary displayable value. -/
theorem c5_available_is_vehicles_minus_rented (V : List Vehicle) (R : List Dict) :
    (∀ v : Vehicle, v ∈ list_available V R ↔ v ∈ V ∧ v.reg ∉ rented_regs R)
    ∧ (list_available V R).Sublist V
    ∧ list_available V [] = V
    ∧ list_available [] R = [] := by
  refine ⟨fun v => ?_, List.filter_sublist V, ?_, rfl⟩
  · simp [list_available, available_cars, List.mem_filter, List.contains, List.elem_iff]
  · simp [list_available, available_cars, rented_regs]

/-- C7: reading a missing file of any collection returns the empty
collection (the caught `FileNotFoundError` path), and reading an empty
vehicles file returns the empty sequence; neither is an error. -/
theorem c7_missing_file_reads_empty :
    (∀ (α : Type) (p : String → Except String α), read_file none p = Except.ok [])
    ∧ read_file none vehicle_parse = Except.ok []
    ∧ read_file none customer_parse = Except.ok []
    ∧ read_file none rented_parse = Except.ok []
    ∧ read_file none transaction_parse = Except.ok []
    ∧ read_file (some []) vehicle_parse = Except.ok [] :=
  ⟨fun _ _ => rfl, rfl, rfl, rfl, rfl, rfl⟩

/-- C10: the duplicate-customer check compares dob strings textually:
"1/1/1990" and "01/01/1990" are distinct strings that parse to the same
calendar date, each passes validation while the other is stored, and
only the textually identical dob is rejected as a duplicate. -/
theorem c10_duplicate_check_is_string_equality :
    parseDate "1/1/1990" = some (1, 1, 1990)
    ∧ parseDate "01/01/1990" = some (1, 1, 1990)
    ∧ "1/1/1990" ≠ "01/01/1990"
    ∧ validate_customer 2026 [customer_line_record "01/01/1990,A,B,a@b.c"] "1/1/1990" = VRes.ok
    ∧ validate_customer 2026 [customer_line_record "1/1/1990,A,B,a@b.c"] "01/01/1990" = VRes.ok
    ∧ validate_customer 2026 [customer_line_record "1/1/1990,A,B,a@b.c"] "1/1/1990"
        = VRes.duplicate := by decide

/-- C2: for any start instant T and return instant now with now at or
after T, the Return Workflow's duration is the floor of the elapsed
time in days plus one and its cost is duration times the daily rate:
a same-instant return gives one day and the exact daily rate, a return
25 hours (90000 seconds) later gives two days. -/
theorem c2_duration_and_cost_law (T now : Datetime) (rate : ℚ)
    (h : toSec T ≤ toSec now) :
    duration_days T now = (toSec now - toSec T).fdiv 86400 + 1
    ∧ return_cost (duration_days T now) rate = duration_days T now * rate
    ∧ (toSec now = toSec T →
        duration_days T now = 1 ∧ return_cost (duration_days T now) rate = rate * 1)
    ∧ (toSec now = toSec T + 90000 → duration_days T now = 2) := by
  refine ⟨rfl, rfl, fun he => ?_, fun he => ?_⟩
  · have hd : toSec now - toSec T = 0 := by omega
    have h1 : duration_days T now = 1 := by
      unfold duration_days tdDays
      rw [hd]
      decide
    refine ⟨h1, ?_⟩
    rw [h1]
    unfold return_cost
    push_cast
    ring
  · have hd : toSec now - toSec T = 90000 := by omega
    unfold duration_days tdDays
    rw [hd]
    decide

theorem c2_duration_and_cost_law_witness :
    toSec ⟨2020, 1, 1, 10, 0, 0⟩ ≤ toSec ⟨2020, 1, 2, 11, 0, 0⟩
    ∧ (duration_days ⟨2020, 1, 1, 10, 0, 0⟩ ⟨2020, 1, 2, 11, 0, 0⟩
          = (toSec ⟨2020, 1, 2, 11, 0, 0⟩ - toSec ⟨2020, 1, 1, 10, 0, 0⟩).fdiv 86400 + 1
        ∧ return_cost (duration_days ⟨2020, 1, 1, 10, 0, 0⟩ ⟨2020, 1, 2, 11, 0, 0⟩) 25
          = duration_days ⟨2020, 1, 1, 10, 0, 0⟩ ⟨2020, 1, 2, 11, 0, 0⟩ * 25
        ∧ (toSec ⟨2020, 1, 2, 11, 0, 0⟩ = toSec ⟨2020, 1, 1, 10, 0, 0⟩ →
            duration_days ⟨2020, 1, 1, 10, 0, 0⟩ ⟨2020, 1, 2, 11, 0, 0⟩ = 1
            ∧ return_cost (duration_days ⟨2020, 1, 1, 10, 0, 0⟩ ⟨2020, 1, 2, 11, 0, 0⟩) 25
              = 25 * 1)
        ∧ (toSec ⟨2020, 1, 2, 11, 0, 0⟩ = toSec ⟨2020, 1, 1, 10, 0, 0⟩ + 90000 →
            duration_days ⟨2020, 1, 1, 10, 0, 0⟩ ⟨2020, 1, 2, 11, 0, 0⟩ = 2)) :=
  ⟨by decide, c2_duration_and_cost_law ⟨2020, 1, 1, 10, 0, 0⟩ ⟨2020, 1, 2, 11, 0, 0⟩ 25 (by decide)⟩

/-- C6: on a dob that parses as a valid DD/MM/YYYY date, onboarding
rejects with the age message exactly when the plain year subtraction
current year minus birth year falls outside [18, 75]. -/
theorem c6_age_gate_is_year_subtraction (nowYear : ℤ) (customers : List Dict)
    (dob : String) (d m y : ℕ) (h : parseDate dob = some (d, m, y)) :
    validate_customer nowYear customers dob = VRes.ageOutOfRange
      ↔ ¬(18 ≤ nowYear - (y : ℤ) ∧ nowYear - (y : ℤ) ≤ 75) := by
  unfold validate_customer
  rw [h]
  split_ifs with h1 h2 <;> simp_all

theorem c6_age_gate_is_year_subtraction_witness :
    parseDate "01/01/2010" = some (1, 1, 2010)
    ∧ (validate_customer 2026 [] "01/01/2010" = VRes.ageOutOfRange
        ↔ ¬(18 ≤ (2026 : ℤ) - ((2010 : ℕ) : ℤ) ∧ (2026 : ℤ) - ((2010 : ℕ) : ℤ) ≤ 75)) :=
  ⟨by decide, c6_age_gate_is_year_subtraction 2026 [] "01/01/2010" 1 1 2010 (by decide)⟩

/-- C9: when no active-rental record matches the requested
registration, `return_car` ends in the reported non-fatal `noRental`
outcome with the rented and transaction files exactly as they were. -/
theorem c9_no_active_rental_leaves_state_unchanged
    (reg : String) (now : Datetime) (vlines rlines tlines : List String)
    (h : (parsedRented rlines).find? (fun r => dget r "reg" == some reg) = none) :
    return_car reg now vlines rlines tlines = (RetOutcome.noRental, rlines, tlines) := by
  simp [return_car, h]

theorem c9_no_active_rental_leaves_state_unchanged_witness :
    (parsedRented ["ABC,01/01/1990,01/01/2020 10:00"]).find?
        (fun r => dget r "reg" == some "ZZZ") = none
    ∧ return_car "ZZZ" ⟨2020, 1, 1, 0, 0, 0⟩ ["ABC,Sedan,25,GPS"]
        ["ABC,01/01/1990,01/01/2020 10:00"] []
      = (RetOutcome.noRental, ["ABC,01/01/1990,01/01/2020 10:00"], []) :=
  ⟨by decide,
   c9_no_active_rental_leaves_state_unchanged "ZZZ" ⟨2020, 1, 1, 0, 0, 0⟩
     ["ABC,Sedan,25,GPS"] ["ABC,01/01/1990,01/01/2020 10:00"] [] (by decide)⟩

/-- C3 counterexample: a customers file whose single line has only one
of the four required fields is malformed, yet the bulk read succeeds
and returns a fabricated partial record (a dict with only the dob key)
instead of aborting with a parse error. -/
theorem c3_malformed_customer_line_reads_ok :
    read_file (some ["01/01/1990"]) customer_parse
      = Except.ok [[("dob", "01/01/1990")]] := rfl

/-- C3 (amended): parse failures abort a bulk read only where a parser
can raise - the vehicle and transaction collections, whose non-numeric
rate/price/duration or missing fields raise and so abort the read with
an error and no partial record set; the customer and active-rental
collections, parsed purely as strings, never abort, and a malformed
line there is silently accepted as a partial record. -/
theorem c3_parse_error_aborts_only_numeric_collections
    (vlines tlines clines rlines : List String) (lv lt ev et : String)
    (hvmem : lv ∈ vlines) (hverr : vehicle_parse (strip lv) = Except.error ev)
    (htmem : lt ∈ tlines) (hterr : transaction_parse (strip lt) = Except.error et) :
    (∃ e, read_file (some vlines) vehicle_parse = Except.error e)
    ∧ (∃ e, read_file (some tlines) transaction_parse = Except.error e)
    ∧ (∃ cs, read_file (some clines) customer_parse = Except.ok cs)
    ∧ (∃ rs, read_file (some rlines) rented_parse = Except.ok rs) :=
  ⟨mapExcept_error_of_mem hvmem hverr,
   mapExcept_error_of_mem htmem hterr,
   mapExcept_ok_of_total (fun l => ⟨customer_line_record (strip l), rfl⟩) clines,
   mapExcept_ok_of_total (fun l => ⟨rented_line_record (strip l), rfl⟩) rlines⟩

theorem c3_parse_error_aborts_only_numeric_collections_witness :
    ("ABC,Sedan,notanum" ∈ ["ABC,Sedan,notanum"])
    ∧ vehicle_parse (strip "ABC,Sedan,notanum") = Except.error "ValueError"
    ∧ ("A,B,C,D,xx,1" ∈ ["A,B,C,D,xx,1"])
    ∧ transaction_parse (strip "A,B,C,D,xx,1") = Except.error "ValueError"
    ∧ ((∃ e, read_file (some ["ABC,Sedan,notanum"]) vehicle_parse = Except.error e)
       ∧ (∃ e, read_file (some ["A,B,C,D,xx,1"]) transaction_parse = Except.error e)
       ∧ (∃ cs, read_file (some ["01/01/1990"]) customer_parse = Except.ok cs)
       ∧ (∃ rs, read_file (some ["x"]) rented_parse = Except.ok rs)) :=
  ⟨by decide, rfl, by decide, rfl,
   c3_parse_error_aborts_only_numeric_collections
     ["ABC,Sedan,notanum"] ["A,B,C,D,xx,1"] ["01/01/1990"] ["x"]
     "ABC,Sedan,notanum" "A,B,C,D,xx,1" "ValueError" "ValueError"
     (by decide) rfl (by decide) rfl⟩

/-- C4: whenever customer validation rejects the candidate dob (invalid
date, age out of range, or duplicate), `rent_car` mutates nothing: the
customer and rented files come back exactly as they were and the
outcome is not a completed rental. -/
theorem c4_onboarding_rejection_mutates_nothing
    (regInput dob fname lname email : String) (nowYear : ℤ) (nowStamp : String)
    (vlines clines rlines : List String)
    (h : validate_customer nowYear (parsedCustomers clines) dob ≠ VRes.ok) :
    (rent_car regInput dob fname lname email nowYear nowStamp vlines clines rlines).2
        = (clines, rlines)
    ∧ (rent_car regInput dob fname lname email nowYear nowStamp vlines clines rlines).1
        ≠ RentOutcome.rented := by
  have hadd : add_customer nowYear clines dob fname lname email = none := by
    unfold add_customer
    rcases hval : validate_customer nowYear (parsedCustomers clines) dob <;> simp_all
  unfold rent_car
  rw [hadd]
  split
  · exact ⟨rfl, by simp⟩
  · split
    · dsimp only
      split
      · exact ⟨rfl, by simp⟩
      · split <;> exact ⟨rfl, by simp⟩
    · rename_i heq
      exact Option.noConfusion heq

theorem c4_onboarding_rejection_mutates_nothing_witness :
    validate_customer 2026 (parsedCustomers []) "31/02/2000" ≠ VRes.ok
    ∧ ((rent_car "ABC123" "31/02/2000" "A" "B" "a@b.c" 2026 "01/01/2026 10:00"
          ["ABC123,Sedan,25,AC"] [] []).2 = ([], [])
       ∧ (rent_car "ABC123" "31/02/2000" "A" "B" "a@b.c" 2026 "01/01/2026 10:00"
          ["ABC123,Sedan,25,AC"] [] []).1 ≠ RentOutcome.rented) :=
  ⟨by decide,
   c4_onboarding_rejection_mutates_nothing "ABC123" "31/02/2000" "A" "B" "a@b.c"
     2026 "01/01/2026 10:00" ["ABC123,Sedan,25,AC"] [] [] (by decide)⟩

/-- C8: when every active-rental registration has a matching vehicle
(the data-integrity invariant), the Return Workflow's vehicle lookup
`next(v for v in vehicles if v['reg'] == reg)` finds a car and the run
does not hit the missing-vehicle fault; when instead no vehicle
matches, the run stops in the distinct fatal `missingVehicle` outcome
(the uncaught `StopIteration`, reported as a crash, unlike the printed
user errors) with both files untouched and no transaction - hence no
fabricated rate - written. -/
theorem c8_vehicle_lookup_integrity
    (reg : String) (now : Datetime) (vlines rlines tlines : List String)
    (vehicles : List Vehicle) (r : Dict)
    (hv : read_file (some vlines) vehicle_parse = Except.ok vehicles)
    (hr : (parsedRented rlines).find? (fun x => dget x "reg" == some reg) = some r) :
    ((∀ rr ∈ parsedRented rlines, ∀ rg, dget rr "reg" = some rg →
        ∃ v ∈ vehicles, v.reg = rg) →
      ∃ car, vehicles.find? (fun v => v.reg == reg) = some car
        ∧ (return_car reg now vlines rlines tlines).1 ≠ RetOutcome.missingVehicle)
    ∧ (vehicles.find? (fun v => v.reg == reg) = none →
        return_car reg now vlines rlines tlines = (RetOutcome.missingVehicle, rlines, tlines)) := by
  constructor
  · intro hinv
    have hrmem : r ∈ parsedRented rlines := List.mem_of_find?_eq_some hr
    have hreg : dget r "reg" = some reg := by
      have := List.find?_some hr
      simpa using this
    rcases hinv r hrmem reg hreg with ⟨v, hvmem, hvreg⟩
    have hsome : (vehicles.find? (fun v => v.reg == reg)).isSome := by
      rw [List.find?_isSome]
      exact ⟨v, hvmem, by simp [hvreg]⟩
    rcases hfind : vehicles.find? (fun v => v.reg == reg) with _ | car
    · rw [hfind] at hsome
      simp at hsome
    · refine ⟨car, hfind, ?_⟩
      simp only [return_car, hr, hv, hfind]
      (repeat' split) <;> simp
  · intro hnone
    simp only [return_car, hr, hv, hnone]

theorem c8_vehicle_lookup_integrity_witness :
    read_file (some ["ABC,Sedan,25,GPS"]) vehicle_parse
      = Except.ok [{ reg := "ABC", model := "Sedan", rate := ((25 : ℕ) : ℚ), properties := ["GPS"] }]
    ∧ (parsedRented ["XYZ,01/01/1990,01/01/2020 10:00"]).find?
        (fun x => dget x "reg" == some "XYZ")
      = some [("reg", "XYZ"), ("customer_dob", "01/01/1990"), ("start_time", "01/01/2020 10:00")]
    ∧ (((∀ rr ∈ parsedRented ["XYZ,01/01/1990,01/01/2020 10:00"], ∀ rg,
          dget rr "reg" = some rg →
          ∃ v ∈ [{ reg := "ABC", model := "Sedan", rate := ((25 : ℕ) : ℚ), properties := ["GPS"] }],
            Vehicle.reg v = rg) →
        ∃ car, [{ reg := "ABC", model := "Sedan", rate := ((25 : ℕ) : ℚ), properties := ["GPS"] }].find?
            (fun v => Vehicle.reg v == "XYZ") = some car
          ∧ (return_car "XYZ" ⟨2020, 1, 5, 0, 0, 0⟩ ["ABC,Sedan,25,GPS"]
              ["XYZ,01/01/1990,01/01/2020 10:00"] []).1 ≠ RetOutcome.missingVehicle)
      ∧ ([{ reg := "ABC", model := "Sedan", rate := ((25 : ℕ) : ℚ), properties := ["GPS"] }].find?
            (fun v => Vehicle.reg v == "XYZ") = none →
          return_car "XYZ" ⟨2020, 1, 5, 0, 0, 0⟩ ["ABC,Sedan,25,GPS"]
              ["XYZ,01/01/1990,01/01/2020 10:00"] []
            = (RetOutcome.missingVehicle, ["XYZ,01/01/1990,01/01/2020 10:00"], []))) :=
  ⟨rfl, rfl,
   c8_vehicle_lookup_integrity "XYZ" ⟨2020, 1, 5, 0, 0, 0⟩ ["ABC,Sedan,25,GPS"]
     ["XYZ,01/01/1990,01/01/2020 10:00"] []
     [{ reg := "ABC", model := "Sedan", rate := ((25 : ℕ) : ℚ), properties := ["GPS"] }]
     [("reg", "XYZ"), ("customer_dob", "01/01/1990"), ("start_time", "01/01/2020 10:00")]
     rfl rfl⟩
